import Mathlib

/-!
Verification of the RAG chatbot core against its specification.

Shallow embedding of the Python backend services in Lean 4: pure code is
translated directly; the external collaborators (embedding model, vector
index, language model, PDF reader) are passed in as explicit function
parameters whose outcomes (`Except`) model raised exceptions.
-/

namespace RAGSpec

/-- ASCII fragment of the whitespace set stripped by Python `str.strip()`. -/
def isPySpace (c : Char) : Bool :=
  c = ' ' || c = '\t' || c = '\n' || c = '\r' || c = '\x0b' || c = '\x0c'

/-- ASCII decimal digits, the characters matched by the regex class `\d`. -/
def isPyDigit (c : Char) : Bool := '0' ≤ c && c ≤ '9'

/-- Strip on character lists: drop leading and trailing whitespace. -/
def stripList (l : List Char) : List Char :=
  ((l.dropWhile isPySpace).reverse.dropWhile isPySpace).reverse

/-- Python `s.strip()`. -/
def pyStrip (s : String) : String := ⟨stripList s.data⟩

/-- Python `s.lower()` (ASCII case mapping). -/
def lowerStr (s : String) : String := ⟨s.data.map Char.toLower⟩

/-- Python `s.upper()` (ASCII case mapping). -/
def upperStr (s : String) : String := ⟨s.data.map Char.toUpper⟩

/-- Substring test on character lists (Python `pat in s`). -/
def containsSub (pat : List Char) : List Char → Bool
  | [] => pat.isEmpty
  | c :: rest => pat.isPrefixOf (c :: rest) || containsSub pat rest

/-- Python `pat in s` on strings. -/
def containsStr (pat s : String) : Bool := containsSub pat.data s.data

/-- Python `sep.join(parts)`. -/
def joinSep (sep : String) : List String → String
  | [] => ""
  | [x] => x
  | x :: y :: rest => x ++ sep ++ joinSep sep (y :: rest)

/-- Python `x or default` for an optional int argument: `None` and `0` are
falsy, every other int is returned unchanged. -/
def pyOrInt (x : Option Int) (d : Int) : Int :=
  match x with
  | none => d
  | some v => if v = 0 then d else v

/-- Python `x or default` for an optional rational argument: `None` and `0.0`
are falsy. -/
def pyOrRat (x : Option ℚ) (d : ℚ) : ℚ :=
  match x with
  | none => d
  | some v => if v = 0 then d else v

/-- Python `x or default` for an optional list argument: `None` and `[]` are
falsy. -/
def pyOrList (x : Option (List String)) : List String :=
  match x with
  | none => []
  | some l => if l.isEmpty then [] else l

namespace Settings

/-- `config.py`: `retrieval_k`, the default number of chunks to retrieve. -/
def retrieval_k : Int := 5

/-- `config.py`: `similarity_threshold`, the default minimum similarity
(`0.4`). -/
def similarity_threshold : ℚ := 2/5

end Settings

/-! ## Embedding service (`embedding_service.py`) -/

/-- Chunk metadata as stored in / returned by the index. The code only ever
reads metadata through `dict.get` with a string rendering, so we model the
dictionary as an association list of string keys and string-rendered values. -/
abbrev Meta := List (String × String)

/-- Python `d.get(key, default)` on the association-list model. -/
def pyDictGet (m : Meta) (key default : String) : String :=
  match m.lookup key with
  | some v => v
  | none => default

/-- `schemas.RetrievedChunk`. -/
structure RetrievedChunk where
  content : String
  metadata : Meta
  similarity_score : ℚ
  deriving Repr, DecidableEq

/-- One zipped element of the index answer `results['documents'][0] /
['metadatas'][0] / ['distances'][0]`. -/
structure SearchEntry where
  document : String
  metadata : Meta
  distance : ℚ
  deriving Repr, DecidableEq

/-- `search_chunks`: `similarity_score = 1 / (1 + distance)`. -/
def similarity_score (distance : ℚ) : ℚ := 1 / (1 + distance)

/-- Round to the nearest integer, ties to even — the rounding used by Python
`round` (modelled exactly over ℚ). -/
def roundHalfEven (x : ℚ) : ℤ :=
  let f := ⌊x⌋
  let r := x - f
  if r < 1/2 then f
  else if 1/2 < r then f + 1
  else if f % 2 = 0 then f else f + 1

/-- Python `round(x, 4)` as used on the similarity score. -/
def round4 (x : ℚ) : ℚ := (roundHalfEven (x * 10000) : ℚ) / 10000

/-- The `RetrievedChunk` built from one index answer element. -/
def mkRetrieved (e : SearchEntry) : RetrievedChunk :=
  { content := e.document
    metadata := e.metadata
    similarity_score := round4 (similarity_score e.distance) }

/-- The result-processing loop of `search_chunks`: keep, in index order, the
entries whose computed similarity clears the threshold. -/
def processResults (threshold : ℚ) : List SearchEntry → List RetrievedChunk
  | [] => []
  | e :: rest =>
    if similarity_score e.distance ≥ threshold then
      mkRetrieved e :: processResults threshold rest
    else
      processResults threshold rest

/-- `EmbeddingService.search_chunks`.  `rawQuery q n` is the outcome of the
two external calls — embedding the query `q` and asking the index for `n`
nearest neighbours — returning the zipped documents/metadatas/distances, or
`Except.error` when either call raises.  `count` is `collection.count()`.
The `try/except` of the source returns `[]` on any raise. -/
def search_chunks (rawQuery : String → Int → Except String (List SearchEntry))
    (count : Int) (query : String) (k : Option Int) (simThreshold : Option ℚ) :
    List RetrievedChunk :=
  let k2 := pyOrInt k Settings.retrieval_k
  let t := pyOrRat simThreshold Settings.similarity_threshold
  match rawQuery query (min k2 count) with
  | .error _ => []
  | .ok entries => processResults t entries

/-! ## LLM service (`llm_service.py`) -/

/-- `schemas.StudentType`. -/
inductive StudentType where
  | weak_physics | weak_chemistry | weak_biology
  | strong_physics | strong_chemistry | strong_biology
  | general
  deriving Repr, DecidableEq

/-- The dictionary returned by `LLMService.generate_response` (the wall-clock
`processing_time` field is not modelled). -/
structure LLMResult where
  success : Bool
  answer : String
  matched_topics : List String
  personalization_applied : Bool
  tokens_used : Nat
  deriving Repr, DecidableEq

/-- `LLMService._create_system_prompt`: base policy text. -/
def basePrompt : String :=
  "You are an AI tutoring assistant specialized in Class 9 NCERT Science. \nYour role is to help students understand scientific concepts clearly and accurately.\n\nIMPORTANT GUIDELINES:\n1. Base your answers ONLY on the provided context from the NCERT textbook\n2. If the context doesn\x27t contain enough information, clearly state this limitation\n3. Never make up facts or provide information not found in the context\n4. Always cite the chapter/page when possible\n5. Use simple, clear language appropriate for Class 9 students"

/-- `LLMService._create_system_prompt`: the personalization block selected by
the student type (empty for `general`). -/
def personalizationBlock (user_type : StudentType) : String :=
  match user_type with
  | .weak_physics =>
    "\nPERSONALIZATION FOR PHYSICS-WEAK STUDENT:\n- Use simple analogies and real-world examples for physics concepts\n- Break down complex physics problems into smaller steps\n- Avoid heavy mathematical derivations unless specifically asked\n- Focus on conceptual understanding over calculations\n- Use everyday examples to explain abstract physics concepts"
  | .weak_chemistry =>
    "\nPERSONALIZATION FOR CHEMISTRY-WEAK STUDENT:\n- Use visual descriptions for chemical processes\n- Relate chemistry concepts to daily life examples\n- Avoid complex chemical equations unless necessary\n- Focus on understanding \x27why\x27 reactions happen\n- Use simple language for chemical terminology"
  | .weak_biology =>
    "\nPERSONALIZATION FOR BIOLOGY-WEAK STUDENT:\n- Use relatable examples from human body and nature\n- Break down biological processes into simple steps\n- Avoid complex biological terminology without explanation\n- Focus on how biological processes affect everyday life\n- Use analogies to explain biological functions"
  | .strong_physics | .strong_chemistry | .strong_biology =>
    "\nPERSONALIZATION FOR ADVANCED STUDENT:\n- You can use more technical terminology\n- Include detailed explanations and mechanisms\n- Make connections between different concepts\n- Encourage deeper thinking with follow-up questions\n- Provide additional context when relevant"
  | .general => ""

/-- `LLMService._create_system_prompt`. -/
def create_system_prompt (user_type : StudentType) (weak_subjects : List String) :
    String :=
  let personalization := personalizationBlock user_type
  let personalization :=
    if weak_subjects.isEmpty then personalization
    else
      personalization ++ "\n\nADDITIONAL CONSIDERATION:\nThe student has indicated weakness in: "
        ++ joinSep ", " weak_subjects
        ++ "\nWhen topics relate to these subjects, provide extra clarity and simpler explanations."
  basePrompt ++ personalization

/-- `LLMService._create_user_prompt`. -/
def create_user_prompt (query context : String) : String :=
  "Based on the following context from the NCERT Class 9 Science textbook, please answer the student\x27s question.\n\nCONTEXT:\n"
    ++ context
    ++ "\n\nSTUDENT\x27S QUESTION:\n"
    ++ query
    ++ "\n\nPlease provide a clear, accurate answer based on the context above. If the context doesn\x27t fully address the question, mention what information is missing."

/-- The fixed sentence substituted for an empty context block. -/
def noContextSentence : String := "No relevant context found in the textbook."

/-- The `[Source i: <chapter>, Page <page>]`-labelled block built for the
`i`-th retrieved chunk (`i` is 1-based). -/
def contextPart (i : Nat) (chunk : RetrievedChunk) : String :=
  "[Source " ++ toString i ++ ": "
    ++ pyDictGet chunk.metadata "chapter" "Unknown Chapter"
    ++ ", Page " ++ pyDictGet chunk.metadata "page_number" "Unknown Page"
    ++ "]\n" ++ chunk.content ++ "\n---"

/-- The labelled blocks for all chunks, in the supplied order
(`enumerate(chunks, 1)`). -/
def contextParts (chunks : List RetrievedChunk) : List String :=
  (List.enumFrom 1 chunks).map fun p => contextPart p.1 p.2

/-- `LLMService._extract_context_from_chunks`. -/
def extract_context_from_chunks (chunks : List RetrievedChunk) : String :=
  if chunks.isEmpty then noContextSentence
  else joinSep "\n\n" (contextParts chunks)

/-- The fixed keyword-to-topic table of `_identify_matched_topics`. -/
def topicKeywords : List (String × List String) :=
  [ ("matter", ["matter", "solid", "liquid", "gas", "state", "particle"])
  , ("motion", ["motion", "speed", "velocity", "acceleration", "distance"])
  , ("force", ["force", "newton", "pressure", "thrust"])
  , ("gravity", ["gravity", "gravitation", "weight", "mass"])
  , ("work_energy", ["work", "energy", "power", "kinetic", "potential"])
  , ("sound", ["sound", "wave", "frequency", "amplitude", "noise"])
  , ("atoms", ["atom", "molecule", "element", "compound", "ion"])
  , ("cell", ["cell", "tissue", "organ", "organism"])
  , ("diversity", ["classification", "species", "kingdom", "taxonomy"])
  , ("health", ["disease", "health", "immunity", "vaccine"]) ]

/-- `LLMService._identify_matched_topics`.  The Python version collects the
hits in a `set` and returns `list(set)`, whose order is unspecified; we fix
the table order, which does not affect membership. -/
def identify_matched_topics (query : String) (chunks : List RetrievedChunk) :
    List String :=
  let text_to_check :=
    lowerStr query ++ " " ++ joinSep " " (chunks.map fun c => lowerStr c.content)
  topicKeywords.filterMap fun p =>
    if p.2.any (fun kw => containsStr kw text_to_check) then some p.1 else none

/-- `LLMService.generate_response`.  `clientConfigured` models whether the
OpenAI client was initialized (an API key was supplied); `api sys usr` is the
outcome of the chat-completions call on the composed prompts, returning the
answer text and total token count, or `Except.error` when the call raises. -/
def generate_response (clientConfigured : Bool)
    (api : String → String → Except String (String × Nat))
    (query : String) (retrieved_chunks : List RetrievedChunk)
    (user_type : StudentType) (weak_subjects : Option (List String)) : LLMResult :=
  if clientConfigured = false then
    { success := false
      answer := "LLM service is not available. Please configure OpenAI API key."
      matched_topics := []
      personalization_applied := false
      tokens_used := 0 }
  else
    let ws := pyOrList weak_subjects
    let context := extract_context_from_chunks retrieved_chunks
    let matched_topics := identify_matched_topics query retrieved_chunks
    let system_prompt := create_system_prompt user_type ws
    let user_prompt := create_user_prompt query context
    let personalization_applied := user_type != StudentType.general || !ws.isEmpty
    match api system_prompt user_prompt with
    | .ok (text, tokens) =>
      { success := true
        answer := pyStrip text
        matched_topics := matched_topics
        personalization_applied := personalization_applied
        tokens_used := tokens }
    | .error e =>
      { success := false
        answer := "I apologize, but I encountered an error while generating the response: LLM response generation failed: " ++ e
        matched_topics := []
        personalization_applied := false
        tokens_used := 0 }

/-! ## RAG orchestration (`rag_service.py`) -/

/-- `schemas.ChatRequest` (the free-form `user_metadata` field, unused by the
pipeline, is not modelled). -/
structure ChatRequest where
  query : String
  user_type : StudentType
  weak_subjects : List String
  session_id : Option String
  deriving Repr, DecidableEq

/-- `schemas.ChatResponse` (the wall-clock `processing_time` and `timestamp`
fields are not modelled). -/
structure ChatResponse where
  query : String
  answer : String
  retrieved_chunks : List String
  metadata : Meta
  user_type : StudentType
  matched_topics : List String
  personalization_applied : Bool
  deriving Repr, DecidableEq

/-- `RAGService.process_chat_query`.  `search` is
`embedding_service.search_chunks` applied to the query and `llm` is
`llm_service.generate_response`; both are total in the embedding because both
source functions catch their own exceptions, so the outer `except` branch of
`process_chat_query` is unreachable here.  The success branch stores
`llm_result.get("metadata", {})`, which is always `{}` because
`generate_response` returns no `"metadata"` key. -/
def process_chat_query
    (search : String → List RetrievedChunk)
    (llm : String → List RetrievedChunk → StudentType → List String → LLMResult)
    (req : ChatRequest) : ChatResponse :=
  let retrieved_chunks := search req.query
  if retrieved_chunks.isEmpty then
    { query := req.query
      answer := "No relevant information found in the textbook."
      retrieved_chunks := []
      metadata := [("message", "no_relevant_chunks")]
      user_type := req.user_type
      matched_topics := []
      personalization_applied := false }
  else
    let chunk_contents := retrieved_chunks.map fun c => c.content
    let llm_result := llm req.query retrieved_chunks req.user_type req.weak_subjects
    { query := req.query
      answer := llm_result.answer
      retrieved_chunks := chunk_contents
      metadata := []
      user_type := req.user_type
      matched_topics := llm_result.matched_topics
      personalization_applied := llm_result.personalization_applied }

/-! ## PDF processor (`pdf_processor.py`)

The two chapter-label regexes are embedded as explicit character-level
matchers reproducing `re.search` semantics (leftmost match position, greedy
quantifiers with backtracking, lazy `.+?`, `IGNORECASE` where the source
passes it).  Where a quantifier's greedy choice is forced — because the
character class of the quantifier is disjoint from what must follow — the
matcher takes the maximal run directly; each such spot is commented. -/

/-- Python `s.endswith(suffix)`. -/
def endsWithStr (suffix s : String) : Bool := suffix.data.isSuffixOf s.data

/-- Case-insensitive literal prefix match, returning the rest of the input. -/
def ciPrefix : List Char → List Char → Option (List Char)
  | [], s => some s
  | _ :: _, [] => none
  | p :: ps, c :: cs => if p.toLower = c.toLower then ciPrefix ps cs else none

/-- Length of the leading whitespace run (`\s*` maximal extent). -/
def wsRun (l : List Char) : Nat := (l.takeWhile isPySpace).length

/-- Length of the leading digit run (`\d+` maximal extent). -/
def digitRun (l : List Char) : Nat := (l.takeWhile isPyDigit).length

/-- The tail `(.+?)(?:\n|$)` of both chapter patterns: `.` does not match a
newline, the lazy group therefore stops at the first newline or at the end of
the input, and it needs at least one character.  Returns the group. -/
def matchLazyDotTail (r : List Char) : Option (List Char) :=
  match r with
  | [] => none
  | c :: _ => if c = '\n' then none else some (r.takeWhile fun a => a ≠ '\n')

/-- Greedy `\s*` followed by a continuation, with backtracking: try dropping
the longest whitespace run first, then ever shorter ones. -/
def tryWsStar (r : List Char) (k : List Char → Option α) : Option α :=
  ((List.range (wsRun r + 1)).reverse).findSome? fun j => k (r.drop j)

/-- The segment `\s*[:\-]?\s*(.+?)(?:\n|$)` of the chapter pattern, with full
backtracking over both `\s*` and the optional separator.  Returns the lazy
group. -/
def matchSepD (r0 : List Char) : Option (List Char) :=
  tryWsStar r0 fun r1 =>
    match r1 with
    | c :: rest =>
      if c = ':' || c = '-' then
        -- greedy `?`: first try consuming the separator, then not
        match tryWsStar rest matchLazyDotTail with
        | some g => some g
        | none => tryWsStar r1 matchLazyDotTail
      else tryWsStar r1 matchLazyDotTail
    | [] => tryWsStar r1 matchLazyDotTail

/-- The segment `(\d+)\s*[:\-]?\s*(.+?)(?:\n|$)`: greedy `\d+` with
backtracking from the maximal run down to one digit.  Returns both groups. -/
def matchNumSepD (r : List Char) : Option (List Char × List Char) :=
  let n := digitRun r
  (((List.range n).map fun b => b + 1).reverse).findSome? fun b =>
    (matchSepD (r.drop b)).map fun g2 => (r.take b, g2)

/-- The whole pattern `Chapter\s+(\d+)\s*[:\-]?\s*(.+?)(?:\n|$)` with
`IGNORECASE`, anchored at the current position. -/
def matchChapterAt (s : List Char) : Option (List Char × List Char) :=
  match ciPrefix "chapter".data s with
  | none => none
  | some r =>
    -- `\s+` is taken maximally: `\d+` follows and the whitespace and digit
    -- classes are disjoint, so no shorter run can succeed.
    let w := wsRun r
    if w = 0 then none else matchNumSepD (r.drop w)

/-- `re.search` for the chapter pattern: try every position left to right. -/
def searchChapter : List Char → Option (List Char × List Char)
  | [] => none
  | c :: rest =>
    match matchChapterAt (c :: rest) with
    | some g => some g
    | none => searchChapter rest

/-- The pattern `(\d+)\.\s+(.+?)(?:\n|$)` anchored at the current position.
`\d+` is taken maximally: a shorter run would leave a digit where the literal
dot is required.  `\s+` backtracks from its maximal run down to one. -/
def matchNumDotAt (s : List Char) : Option (List Char × List Char) :=
  let n := digitRun s
  if n = 0 then none
  else
    match s.drop n with
    | '.' :: r =>
      let w := wsRun r
      (((List.range w).map fun j => j + 1).reverse).findSome? fun j =>
        (matchLazyDotTail (r.drop j)).map fun g2 => (s.take n, g2)
    | _ => none

/-- `re.search` for the numbered-heading pattern. -/
def searchNumDot : List Char → Option (List Char × List Char)
  | [] => none
  | c :: rest =>
    match matchNumDotAt (c :: rest) with
    | some g => some g
    | none => searchNumDot rest

/-- `PDFProcessor._extract_chapter_from_text`.  The first two source patterns
differ only in the case of the literal `Chapter`; both are applied with
`IGNORECASE`, so the second search repeats the first.  Every pattern has
exactly two groups, so the two-group branch of the source always fires and the
result is the formatted `Chapter <n>: <title>` string. -/
def extract_chapter_from_text (text : String) : Option String :=
  let cs := text.data
  match searchChapter cs with
  | some (num, name) => some ("Chapter " ++ String.mk num ++ ": " ++ pyStrip (String.mk name))
  | none =>
    match searchChapter cs with
    | some (num, name) => some ("Chapter " ++ String.mk num ++ ": " ++ pyStrip (String.mk name))
    | none =>
      match searchNumDot cs with
      | some (num, name) => some ("Chapter " ++ String.mk num ++ ": " ++ pyStrip (String.mk name))
      | none => none

/-- The pattern `iesc(\d+)\.pdf` with `IGNORECASE`, anchored at the current
position.  `\d+` is maximal: a shorter run leaves a digit where `\.` is
required.  Returns the digit group. -/
def matchIescNumAt (s : List Char) : Option (List Char) :=
  match ciPrefix "iesc".data s with
  | none => none
  | some r =>
    let n := digitRun r
    if n = 0 then none
    else
      match ciPrefix ".pdf".data (r.drop n) with
      | some _ => some (r.take n)
      | none => none

/-- `re.search` for `iesc(\d+)\.pdf`. -/
def searchIescNum : List Char → Option (List Char)
  | [] => none
  | c :: rest =>
    match matchIescNumAt (c :: rest) with
    | some g => some g
    | none => searchIescNum rest

/-- The body executed by `_extract_chapter_from_filename` once some pattern
matched; `group1` is the digit group when the numeric pattern matched. -/
def chapterMatchBranch (filename : String) (group1 : Option String) : String :=
  if containsStr "1an" (lowerStr filename) then "Annexure"
  else if containsStr "1ps" (lowerStr filename) then "Preface"
  else
    match group1 with
    | some chapter_num =>
      if chapter_num.startsWith "10" then "Chapter " ++ chapter_num.drop 2
      else "Chapter " ++ chapter_num
    | none => ""
      -- here the source would evaluate `match.group(1)` on a groupless
      -- pattern and raise; the arm is unreachable because the groupless
      -- patterns only match filenames containing "1an" or "1ps", which the
      -- branches above intercept

/-- `os.path.splitext(...)[0]` for a bare filename: the extension starts at
the last dot preceded by some non-dot character (a leading run of dots never
starts an extension).  The argument is always an `os.path.basename`, so
directory separators need not be considered. -/
def lastValidDot (l : List Char) : Option Nat :=
  (List.range l.length).foldl
    (fun acc i =>
      if (l.get? i == some '.') && (l.take i).any (fun c => c != '.') then some i
      else acc)
    none

/-- The root part of `os.path.splitext`. -/
def splitextRoot (s : String) : String :=
  match lastValidDot s.data with
  | some i => ⟨s.data.take i⟩
  | none => s

/-- `PDFProcessor._extract_chapter_from_filename`: the three patterns are
tried in order; on the first match the shared branch runs; if none matches,
the uppercased filename root is returned. -/
def extract_chapter_from_filename (filename : String) : String :=
  match searchIescNum filename.data with
  | some digits => chapterMatchBranch filename (some (String.mk digits))
  | none =>
    if containsStr "iesc1an.pdf" (lowerStr filename) then
      chapterMatchBranch filename none
    else if containsStr "iesc1ps.pdf" (lowerStr filename) then
      chapterMatchBranch filename none
    else upperStr (splitextRoot filename)

/-- The per-page label resolution of `extract_text_with_structure`
(lines 92-94): `current_chapter = text_chapter or chapter_info`, where
Python's `or` also falls back when the text-derived label is the empty
string. -/
def currentChapter (text filename : String) : String :=
  let chapter_info := extract_chapter_from_filename filename
  match extract_chapter_from_text text with
  | some text_chapter => if text_chapter = "" then chapter_info else text_chapter
  | none => chapter_info

/-- One element of the `sections` list built by
`extract_text_with_structure`. -/
structure PageSection where
  text : String
  page_number : Int
  chapter : String
  source : String
  filename : String
  deriving Repr, DecidableEq

/-- The metadata dictionary attached to a chunk by `create_chunks`. -/
structure ChunkMetadata where
  chapter : String
  page_number : Int
  source : String
  filename : String
  chunk_index : Nat
  total_chunks_in_section : Nat
  chunk_type : String
  deriving Repr, DecidableEq

/-- `schemas.DocumentChunk`. -/
structure DocumentChunk where
  text : String
  metadata : ChunkMetadata
  chunk_id : String
  deriving Repr, DecidableEq

/-- `PDFProcessor._identify_chunk_type`: first matching rule wins. -/
def identify_chunk_type (text : String) : String :=
  let text_lower := lowerStr text
  if ["definition:", "define", "is defined as", "refers to"].any
      (fun w => containsStr w text_lower) then "definition"
  else if endsWithStr "?" (pyStrip text) || containsStr "question" text_lower then
    "question"
  else if ["example", "for instance", "such as"].any
      (fun w => containsStr w text_lower) then "example"
  else if ['=', '∝', '±', '°'].any (fun c => text.data.contains c) then "formula"
  else "content"

/-- `PDFProcessor.create_chunks`.  `splitter` is the external
`RecursiveCharacterTextSplitter.split_text`; `fresh` supplies the
`uuid.uuid4()` chunk ids (random in the source, an arbitrary id source
here). -/
def create_chunks (splitter : String → List String)
    (fresh : PageSection → Nat → String) (sections : List PageSection) :
    List DocumentChunk :=
  sections.flatMap fun sec =>
    let text_chunks := splitter sec.text
    text_chunks.enum.filterMap fun p =>
      let i := p.1
      let chunk_text := p.2
      if (pyStrip chunk_text).length < 50 then none
      else
        some
          { text := pyStrip chunk_text
            metadata :=
              { chapter := sec.chapter
                page_number := sec.page_number
                source := sec.source
                filename := sec.filename
                chunk_index := i
                total_chunks_in_section := text_chunks.length
                chunk_type := identify_chunk_type chunk_text }
            chunk_id := fresh sec i }

/-- The pages obtained from one document, `[]` when opening or parsing the
document raised (the source logs a warning and continues). -/
def okSections (extract : String → Except String (List PageSection))
    (f : String) : List PageSection :=
  match extract f with
  | .ok s => s
  | .error _ => []

/-- The `all_sections` accumulator of `process_pdf`. -/
def collectSections (extract : String → Except String (List PageSection))
    (files : List String) : List PageSection :=
  files.flatMap (okSections extract)

/-- The dictionary returned by `process_pdf` (wall-clock timing dropped). -/
structure PdfResult where
  success : Bool
  total_chunks : Nat
  total_files_processed : Nat
  chunks : List DocumentChunk
  message : String
  deriving Repr, DecidableEq

/-- The file list processed by `process_pdf`: the single given path, or the
discovered directory listing. -/
def selectedFiles (pdf_path : Option String) (discovered : List String) :
    List String :=
  match pdf_path with
  | some p => [p]
  | none => discovered

/-- `PDFProcessor.process_pdf`.  `extract` is `extract_text_with_structure`
together with the external PDF reader (`Except.error` when opening or parsing
raises); `discovered` is the result of `discover_pdf_files`.  The two
`raise ValueError` statements are caught by the surrounding `except` and
converted into the failure dictionary. -/
def process_pdf (splitter : String → List String)
    (fresh : PageSection → Nat → String)
    (extract : String → Except String (List PageSection))
    (pdf_path : Option String) (discovered : List String) : PdfResult :=
  let pdf_files := selectedFiles pdf_path discovered
  if pdf_files.isEmpty then
    { success := false, total_chunks := 0, total_files_processed := 0
      chunks := []
      message := "PDF processing failed: No PDF files found to process" }
  else
    let all_sections := collectSections extract pdf_files
    if all_sections.isEmpty then
      { success := false, total_chunks := 0, total_files_processed := 0
        chunks := []
        message := "PDF processing failed: No text content extracted from any PDF" }
    else
      let chunks := create_chunks splitter fresh all_sections
      { success := true
        total_chunks := chunks.length
        total_files_processed := pdf_files.length
        chunks := chunks
        message := "Successfully processed " ++ toString pdf_files.length
          ++ " PDF files into " ++ toString chunks.length ++ " chunks" }

/-! ## Theorems -/

lemma processResults_sublist (t : ℚ) (entries : List SearchEntry) :
    (processResults t entries).Sublist (entries.map mkRetrieved) := by
  induction entries with
  | nil => simp [processResults]
  | cons e rest ih =>
    by_cases h : similarity_score e.distance ≥ t
    · simpa [processResults, h] using ih.cons₂ (mkRetrieved e)
    · simpa [processResults, h] using ih.cons (mkRetrieved e)

lemma processResults_mono (t1 t2 : ℚ) (h : t1 ≤ t2) (entries : List SearchEntry) :
    (processResults t2 entries).Sublist (processResults t1 entries) := by
  induction entries with
  | nil => simp [processResults]
  | cons e rest ih =>
    by_cases h2 : similarity_score e.distance ≥ t2
    · have h1 : similarity_score e.distance ≥ t1 := le_trans h h2
      simpa [processResults, h1, h2] using ih.cons₂ (mkRetrieved e)
    · by_cases h1 : similarity_score e.distance ≥ t1
      · simpa [processResults, h1, h2] using ih.cons (mkRetrieved e)
      · simpa [processResults, h1, h2] using ih

lemma processResults_mem (t : ℚ) (entries : List SearchEntry) :
    ∀ c ∈ processResults t entries,
      ∃ e ∈ entries, similarity_score e.distance ≥ t ∧ c = mkRetrieved e := by
  induction entries with
  | nil => simp [processResults]
  | cons e rest ih =>
    intro c hc
    by_cases h : similarity_score e.distance ≥ t
    · rw [processResults, if_pos h] at hc
      rcases List.mem_cons.mp hc with hhead | htail
      · exact ⟨e, List.mem_cons_self e rest, h, hhead⟩
      · rcases ih c htail with ⟨e2, he2, hs, hc2⟩
        exact ⟨e2, List.mem_cons_of_mem e he2, hs, hc2⟩
    · rw [processResults, if_neg h] at hc
      rcases ih c hc with ⟨e2, he2, hs, hc2⟩
      exact ⟨e2, List.mem_cons_of_mem e he2, hs, hc2⟩

/-- C2: the similarity computed by `search_chunks` on a raw distance `d ≥ 0`
is `1 / (1 + d)`; it is exactly `1` at `d = 0`, lies in `(0, 1]` for every
`d ≥ 0`, and is strictly decreasing in `d`. -/
theorem similarity_mapping_spec (d : ℚ) (hd : 0 ≤ d) :
    (similarity_score d = 1 / (1 + d) ∧ similarity_score 0 = 1 ∧
      0 < similarity_score d ∧ similarity_score d ≤ 1) ∧
    ∀ d2, d < d2 → similarity_score d2 < similarity_score d := by
  have h1 : (0 : ℚ) < 1 + d := by linarith
  constructor
  · refine ⟨rfl, by norm_num [similarity_score], div_pos one_pos h1, ?_⟩
    rw [similarity_score, div_le_one h1]
    linarith
  · intro d2 hlt
    have h2 : (0 : ℚ) < 1 + d2 := by linarith
    rw [similarity_score, similarity_score]
    exact div_lt_div_of_pos_left one_pos h1 (by linarith)

/-- Witness for `similarity_mapping_spec` at `d = 3`, `d2 = 4`. -/
theorem similarity_mapping_spec_witness :
    similarity_score 3 = 1 / 4 ∧ similarity_score 4 < similarity_score 3 := by
  have h := similarity_mapping_spec 3 (by norm_num)
  refine ⟨?_, h.2 4 (by norm_num)⟩
  rw [h.1.1]
  norm_num

/-- C3 counterexample: a threshold of `0.0` is falsy in Python and is
replaced by the configured default `0.4`, so for the thresholds
`t1 = 0 ≤ t2 = 1/5` and an index answer of distance `2` (similarity `1/3`)
the result at the higher threshold is not a subset of the result at the
lower one. -/
theorem threshold_monotonicity_counterexample :
    (0 : ℚ) ≤ 1/5 ∧
    search_chunks (fun _ _ => Except.ok [⟨"d", [], 2⟩]) 1 "q" none (some 0)
      = [] ∧
    search_chunks (fun _ _ => Except.ok [⟨"d", [], 2⟩]) 1 "q" none (some (1/5))
      = [mkRetrieved ⟨"d", [], 2⟩] ∧
    ¬ (∀ c ∈ search_chunks (fun _ _ => Except.ok [⟨"d", [], 2⟩]) 1 "q" none
          (some (1/5)),
        c ∈ search_chunks (fun _ _ => Except.ok [⟨"d", [], 2⟩]) 1 "q" none
          (some 0)) := by
  have h0 : search_chunks (fun _ _ => Except.ok [⟨"d", [], 2⟩]) 1 "q" none
      (some 0) = [] := by
    norm_num [search_chunks, pyOrInt, pyOrRat, Settings.retrieval_k,
      Settings.similarity_threshold, processResults, similarity_score]
  have h1 : search_chunks (fun _ _ => Except.ok [⟨"d", [], 2⟩]) 1 "q" none
      (some (1/5)) = [mkRetrieved ⟨"d", [], 2⟩] := by
    norm_num [search_chunks, pyOrInt, pyOrRat, Settings.retrieval_k,
      Settings.similarity_threshold, processResults, similarity_score]
  refine ⟨by norm_num, h0, h1, ?_⟩
  intro hall
  have hmem := hall (mkRetrieved ⟨"d", [], 2⟩) (by rw [h1]; exact List.mem_singleton.mpr rfl)
  rw [h0] at hmem
  cases hmem

/-- C3 (amended): for a positive (truthy) threshold `t`, every chunk returned
by `search_chunks` comes from an index answer element whose computed
similarity is at least `t`; for any threshold argument the returned chunks
form a sublist of the index answer in its original order (no re-sorting); and
for positive thresholds `0 < t1 ≤ t2` the result at `t2` is a sublist — in
particular a subset — of the result at `t1`.  A threshold of exactly `0.0` is
falsy and replaced by the configured default. -/
theorem threshold_filter_spec
    (rawQuery : String → Int → Except String (List SearchEntry)) (count : Int)
    (query : String) (k : Option Int) (t t1 t2 : ℚ) (entries : List SearchEntry)
    (hok : rawQuery query (min (pyOrInt k Settings.retrieval_k) count)
      = Except.ok entries) :
    (t ≠ 0 → ∀ c ∈ search_chunks rawQuery count query k (some t),
        ∃ e ∈ entries, similarity_score e.distance ≥ t ∧ c = mkRetrieved e) ∧
    (∀ st, (search_chunks rawQuery count query k st).Sublist
        (entries.map mkRetrieved)) ∧
    (0 < t1 → t1 ≤ t2 →
      (search_chunks rawQuery count query k (some t2)).Sublist
        (search_chunks rawQuery count query k (some t1)) ∧
      ∀ c ∈ search_chunks rawQuery count query k (some t2),
        c ∈ search_chunks rawQuery count query k (some t1)) := by
  have hsc : ∀ st, search_chunks rawQuery count query k st
      = processResults (pyOrRat st Settings.similarity_threshold) entries := by
    intro st
    simp [search_chunks, hok]
  refine ⟨?_, ?_, ?_⟩
  · intro ht c hc
    rw [hsc (some t)] at hc
    have heff : pyOrRat (some t) Settings.similarity_threshold = t := by
      simp [pyOrRat, ht]
    rw [heff] at hc
    exact processResults_mem t entries c hc
  · intro st
    rw [hsc st]
    exact processResults_sublist _ entries
  · intro hpos hle
    have hne1 : t1 ≠ 0 := ne_of_gt hpos
    have hne2 : t2 ≠ 0 := ne_of_gt (lt_of_lt_of_le hpos hle)
    have h1 : pyOrRat (some t1) Settings.similarity_threshold = t1 := by
      simp [pyOrRat, hne1]
    have h2 : pyOrRat (some t2) Settings.similarity_threshold = t2 := by
      simp [pyOrRat, hne2]
    rw [hsc (some t1), hsc (some t2), h1, h2]
    exact ⟨processResults_mono t1 t2 hle entries,
      fun c hc => (processResults_mono t1 t2 hle entries).subset hc⟩

/-- Witness for `threshold_filter_spec`: thresholds `1/4 ≤ 1/2` over a
two-entry index answer with similarities `1` and `1/4`. -/
theorem threshold_filter_spec_witness :
    (search_chunks (fun _ _ => Except.ok [⟨"d1", [], 0⟩, ⟨"d2", [], 3⟩]) 2 "q"
        none (some (1/2))).Sublist
      (search_chunks (fun _ _ => Except.ok [⟨"d1", [], 0⟩, ⟨"d2", [], 3⟩]) 2 "q"
        none (some (1/4))) :=
  ((threshold_filter_spec (fun _ _ => Except.ok [⟨"d1", [], 0⟩, ⟨"d2", [], 3⟩])
      2 "q" none 1 (1/4) (1/2) [⟨"d1", [], 0⟩, ⟨"d2", [], 3⟩] rfl).2.2
    (by norm_num) (by norm_num)).1

/-- C10: passing `k = 0` or `similarity_threshold = 0.0` to `search_chunks`
is the same as omitting the argument — Python's `or` substitutes the
configured defaults (`retrieval_k = 5`, `similarity_threshold = 0.4`) for
falsy values — and the effective `k` and threshold are never zero. -/
theorem falsy_defaults_spec (rawQuery : String → Int → Except String (List SearchEntry))
    (count : Int) (query : String) :
    (∀ st, search_chunks rawQuery count query (some 0) st
        = search_chunks rawQuery count query none st) ∧
    (∀ k, search_chunks rawQuery count query k (some 0)
        = search_chunks rawQuery count query k none) ∧
    pyOrInt (some 0) Settings.retrieval_k = 5 ∧
    pyOrRat (some 0) Settings.similarity_threshold = 2/5 ∧
    (∀ k, pyOrInt k Settings.retrieval_k ≠ 0) ∧
    (∀ st, pyOrRat st Settings.similarity_threshold ≠ 0) := by
  refine ⟨fun st => rfl, fun k => rfl, rfl, rfl, ?_, ?_⟩
  · intro k
    cases k with
    | none => simp [pyOrInt, Settings.retrieval_k]
    | some v =>
      by_cases hv : v = 0 <;> simp [pyOrInt, Settings.retrieval_k, hv]
  · intro st
    cases st with
    | none => simp [pyOrRat, Settings.similarity_threshold]
    | some v =>
      by_cases hv : v = 0 <;> simp [pyOrRat, Settings.similarity_threshold, hv]

/-- Witness for `falsy_defaults_spec` at a concrete query function. -/
theorem falsy_defaults_spec_witness :
    search_chunks (fun _ _ => Except.ok []) 0 "q" (some 0) (some 0)
      = search_chunks (fun _ _ => Except.ok []) 0 "q" none (some 0) :=
  (falsy_defaults_spec (fun _ _ => Except.ok []) 0 "q").1 (some 0)

/-- C1: when retrieval returns no chunks, `process_chat_query` answers with
the fixed no-relevant-information message, an empty `retrieved_chunks` list,
and a result independent of the language-model service — the service is not
invoked. -/
theorem empty_retrieval_short_circuit
    (search : String → List RetrievedChunk)
    (llm : String → List RetrievedChunk → StudentType → List String → LLMResult)
    (req : ChatRequest) (hempty : search req.query = []) :
    (process_chat_query search llm req).answer
        = "No relevant information found in the textbook." ∧
    (process_chat_query search llm req).retrieved_chunks = [] ∧
    ∀ llm2, process_chat_query search llm2 req = process_chat_query search llm req := by
  refine ⟨?_, ?_, ?_⟩ <;> simp [process_chat_query, hempty]

/-- Witness for `empty_retrieval_short_circuit` on an empty corpus. -/
theorem empty_retrieval_short_circuit_witness :
    (process_chat_query (fun _ => [])
        (fun _ _ _ _ => ⟨true, "llm answer", [], true, 7⟩)
        ⟨"photosynthesis", StudentType.general, [], none⟩).answer
      = "No relevant information found in the textbook." :=
  (empty_retrieval_short_circuit (fun _ => [])
    (fun _ _ _ _ => ⟨true, "llm answer", [], true, 7⟩)
    ⟨"photosynthesis", StudentType.general, [], none⟩ rfl).1

/-- C9: when the query-time embedding or index call raises, `search_chunks`
returns `[]` instead of propagating, and the pipeline turns this into the
degraded no-information answer rather than an unhandled fault. -/
theorem search_failure_degrades
    (rawQuery : String → Int → Except String (List SearchEntry))
    (count : Int) (k : Option Int) (st : Option ℚ)
    (llm : String → List RetrievedChunk → StudentType → List String → LLMResult)
    (req : ChatRequest) (err : String)
    (hfail : rawQuery req.query (min (pyOrInt k Settings.retrieval_k) count)
      = Except.error err) :
    search_chunks rawQuery count req.query k st = [] ∧
    process_chat_query (fun q => search_chunks rawQuery count q k st) llm req
      = { query := req.query
          answer := "No relevant information found in the textbook."
          retrieved_chunks := []
          metadata := [("message", "no_relevant_chunks")]
          user_type := req.user_type
          matched_topics := []
          personalization_applied := false } := by
  have hs : search_chunks rawQuery count req.query k st = [] := by
    simp [search_chunks, hfail]
  exact ⟨hs, by simp [process_chat_query, hs]⟩

/-- Witness for `search_failure_degrades` at a failing index call. -/
theorem search_failure_degrades_witness :
    search_chunks (fun _ _ => Except.error "index down") 0 "gravity" none none
      = [] :=
  (search_failure_degrades (fun _ _ => Except.error "index down") 0 none none
    (fun _ _ _ _ => ⟨true, "a", [], false, 0⟩)
    ⟨"gravity", StudentType.general, [], none⟩ "index down" rfl).1

/-- C6 counterexample: with no configured client, `generate_response` returns
`personalization_applied = false` even though the user type is not the
general category, refuting the unconditional iff. -/
theorem personalization_flag_counterexample :
    (generate_response false (fun _ _ => Except.ok ("ans", 0)) "q" []
        StudentType.weak_physics none).personalization_applied = false ∧
    StudentType.weak_physics ≠ StudentType.general := by
  exact ⟨rfl, by decide⟩

/-- C6 (amended): on the successful path — client configured and the
model call returning — `personalization_applied` is true iff the user type
differs from the general category or the weak-subjects list is non-empty; on
the unconfigured-client and call-failure paths the flag is false. -/
theorem personalization_flag_spec (clientConfigured : Bool)
    (api : String → String → Except String (String × Nat))
    (query : String) (chunks : List RetrievedChunk)
    (user_type : StudentType) (weak_subjects : Option (List String)) :
    (clientConfigured = false →
      (generate_response clientConfigured api query chunks user_type
        weak_subjects).personalization_applied = false) ∧
    (∀ e, clientConfigured = true →
      api (create_system_prompt user_type (pyOrList weak_subjects))
          (create_user_prompt query (extract_context_from_chunks chunks))
        = Except.error e →
      (generate_response clientConfigured api query chunks user_type
        weak_subjects).personalization_applied = false) ∧
    (∀ text tokens, clientConfigured = true →
      api (create_system_prompt user_type (pyOrList weak_subjects))
          (create_user_prompt query (extract_context_from_chunks chunks))
        = Except.ok (text, tokens) →
      ((generate_response clientConfigured api query chunks user_type
          weak_subjects).personalization_applied = true ↔
        (user_type ≠ StudentType.general ∨ pyOrList weak_subjects ≠ []))) := by
  refine ⟨?_, ?_, ?_⟩
  · intro h
    subst h
    rfl
  · intro e hcc herr
    subst hcc
    simp [generate_response, herr]
  · intro text tokens hcc hok
    subst hcc
    simp only [generate_response, if_neg (by simp : ¬(true = false)), hok]
    simp [Bool.or_eq_true, bne_iff_ne, Bool.not_eq_true', List.isEmpty_iff,
      List.isEmpty_eq_false]

/-- Witness for `personalization_flag_spec`: a configured client, a
succeeding call, and a physics-weak profile give a true flag. -/
theorem personalization_flag_spec_witness :
    (generate_response true (fun _ _ => Except.ok ("a", 1)) "q" []
        StudentType.weak_physics none).personalization_applied = true := by
  have h := (personalization_flag_spec true (fun _ _ => Except.ok ("a", 1)) "q" []
    StudentType.weak_physics none).2.2 "a" 1 rfl rfl
  exact h.mpr (Or.inl (by decide))

lemma ne_empty_of_length_pos {s : String} (h : 0 < s.length) : s ≠ "" := by
  intro he
  rw [he] at h
  exact absurd h (by decide)

lemma joinSep_length_ge (sep x : String) (xs : List String) :
    x.length ≤ (joinSep sep (x :: xs)).length := by
  cases xs with
  | nil => simp [joinSep]
  | cons y ys =>
    simp only [joinSep, String.length_append]
    omega

lemma getElem?_enumFrom {α : Type} (n : Nat) (l : List α) (k : Nat) :
    (List.enumFrom n l)[k]? = l[k]?.map fun a => (n + k, a) := by
  induction l generalizing n k with
  | nil => simp [List.enumFrom]
  | cons a rest ih =>
    cases k with
    | zero => simp [List.enumFrom]
    | succ k2 =>
      simp only [List.enumFrom, List.getElem?_cons_succ, ih (n + 1) k2]
      have : n + 1 + k2 = n + (k2 + 1) := by omega
      rw [this]

/-- C7: for an empty chunk list the context block is the fixed
no-relevant-context sentence; for a non-empty list it is the join of the
per-chunk blocks in the supplied order, the `k`-th block carrying the 1-based
label index `k + 1`; the context is never empty, and the user prompt embeds
it verbatim. -/
theorem context_block_spec (chunks : List RetrievedChunk) (query : String) :
    (chunks = [] → extract_context_from_chunks chunks = noContextSentence) ∧
    (chunks ≠ [] →
      extract_context_from_chunks chunks = joinSep "\n\n" (contextParts chunks)) ∧
    (∀ k c, chunks[k]? = some c →
      (contextParts chunks)[k]? = some (contextPart (k + 1) c)) ∧
    extract_context_from_chunks chunks ≠ "" ∧
    (∃ pre post, create_user_prompt query (extract_context_from_chunks chunks)
        = pre ++ extract_context_from_chunks chunks ++ post) := by
  refine ⟨?_, ?_, ?_, ?_, ?_⟩
  · intro h
    subst h
    rfl
  · intro h
    simp [extract_context_from_chunks, h]
  · intro k c hk
    simp [contextParts, List.getElem?_map, getElem?_enumFrom, hk, Nat.add_comm]
  · cases chunks with
    | nil => decide
    | cons c cs =>
      have hform : extract_context_from_chunks (c :: cs)
          = joinSep "\n\n" (contextPart 1 c :: (List.enumFrom 2 cs).map fun p => contextPart p.1 p.2) := by
        simp [extract_context_from_chunks, contextParts, List.enumFrom]
      have hpos : 0 < (contextPart 1 c).length := by
        have h8 : ("[Source " : String).length = 8 := rfl
        simp only [contextPart, String.length_append]
        omega
      refine ne_empty_of_length_pos ?_
      rw [hform]
      exact lt_of_lt_of_le hpos (joinSep_length_ge _ _ _)
  · refine ⟨"Based on the following context from the NCERT Class 9 Science textbook, please answer the student\x27s question.\n\nCONTEXT:\n",
      "\n\nSTUDENT\x27S QUESTION:\n" ++ query ++ "\n\nPlease provide a clear, accurate answer based on the context above. If the context doesn\x27t fully address the question, mention what information is missing.", ?_⟩
    simp [create_user_prompt, String.append_assoc]

/-- Witness for `context_block_spec`: the empty-list sentence and the 1-based
label of the first block of a one-chunk list. -/
theorem context_block_spec_witness :
    extract_context_from_chunks [] = noContextSentence ∧
    (contextParts [⟨"Gravity pulls objects toward Earth.",
        [("chapter", "Chapter 10"), ("page_number", "134")], 62/100⟩])[0]?
      = some (contextPart 1 ⟨"Gravity pulls objects toward Earth.",
        [("chapter", "Chapter 10"), ("page_number", "134")], 62/100⟩) :=
  ⟨(context_block_spec [] "q").1 rfl,
   (context_block_spec [⟨"Gravity pulls objects toward Earth.",
      [("chapter", "Chapter 10"), ("page_number", "134")], 62/100⟩]
      "why does a ball fall").2.2.1 0 _ rfl⟩

lemma dropWhile_dropWhile {α : Type} (p : α → Bool) (l : List α) :
    (l.dropWhile p).dropWhile p = l.dropWhile p := by
  induction l with
  | nil => rfl
  | cons a rest ih =>
    by_cases h : p a
    · simp [List.dropWhile_cons, h, ih]
    · simp [List.dropWhile_cons, h]

lemma length_dropWhile_le {α : Type} (p : α → Bool) (l : List α) :
    (l.dropWhile p).length ≤ l.length := by
  induction l with
  | nil => simp
  | cons a t ih =>
    by_cases h : p a
    · simp only [List.dropWhile_cons, if_pos h, List.length_cons]
      omega
    · simp [List.dropWhile_cons, h]

lemma dropWhile_head_false {α : Type} (p : α → Bool) (l : List α) (a : α)
    (t : List α) (h : l.dropWhile p = a :: t) : p a = false := by
  by_contra hpa
  have hpa2 : p a = true := by revert hpa; cases p a <;> simp
  have h2 := dropWhile_dropWhile p l
  rw [h, List.dropWhile_cons, if_pos hpa2] at h2
  have hlen := congrArg List.length h2
  have hle := length_dropWhile_le p t
  simp at hlen
  omega

lemma dropWhile_eq_self_of_head {α : Type} (p : α → Bool) (l : List α)
    (h : ∀ a t, l = a :: t → p a = false) : l.dropWhile p = l := by
  cases l with
  | nil => rfl
  | cons a t => rw [List.dropWhile_cons, if_neg (by simp [h a t rfl])]

lemma strip_idem_core {α : Type} (p : α → Bool) (l : List α) :
    ((((l.dropWhile p).reverse.dropWhile p).reverse.dropWhile p).reverse.dropWhile p).reverse
      = ((l.dropWhile p).reverse.dropWhile p).reverse := by
  have hfront : ((l.dropWhile p).reverse.dropWhile p).reverse.dropWhile p
      = ((l.dropWhile p).reverse.dropWhile p).reverse := by
    apply dropWhile_eq_self_of_head
    intro a t h
    have hsplit := List.takeWhile_append_dropWhile (p := p)
      (l := (l.dropWhile p).reverse)
    have hA : l.dropWhile p
        = ((l.dropWhile p).reverse.dropWhile p).reverse
          ++ ((l.dropWhile p).reverse.takeWhile p).reverse := by
      have h3 := congrArg List.reverse hsplit
      rw [List.reverse_append, List.reverse_reverse] at h3
      exact h3.symm
    rw [h] at hA
    exact dropWhile_head_false p l a _ hA
  rw [hfront, List.reverse_reverse, dropWhile_dropWhile]

lemma stripList_idem (l : List Char) : stripList (stripList l) = stripList l :=
  strip_idem_core isPySpace l

lemma pyStrip_idem (s : String) : pyStrip (pyStrip s) = pyStrip s :=
  congrArg String.mk (stripList_idem s.data)

lemma length_filterMap_enumFrom {α β : Type} (f : Nat → α → Option β)
    (q : α → Bool) (hf : ∀ i a, (f i a).isSome = q a) (n : Nat) (l : List α) :
    ((List.enumFrom n l).filterMap fun p => f p.1 p.2).length = l.countP q := by
  induction l generalizing n with
  | nil => rfl
  | cons a rest ih =>
    simp only [List.enumFrom, List.filterMap_cons, List.countP_cons]
    cases hfa : f n a with
    | none =>
      have hqa : q a = false := by rw [← hf n a, hfa]; rfl
      simp [hqa, ih (n + 1)]
    | some b =>
      have hqa : q a = true := by rw [← hf n a, hfa]; rfl
      simp [hqa, ih (n + 1)]

/-- C4: every chunk produced by `create_chunks` has an already-trimmed text of
length at least 50, and the number of chunks equals the number of windows
whose trimmed text reaches 50 characters — shorter windows are absent. -/
theorem chunk_min_length_spec (splitter : String → List String)
    (fresh : PageSection → Nat → String) (sections : List PageSection) :
    (∀ c ∈ create_chunks splitter fresh sections,
        pyStrip c.text = c.text ∧ 50 ≤ c.text.length) ∧
    (create_chunks splitter fresh sections).length =
      (sections.map fun sec =>
        (splitter sec.text).countP fun w => 50 ≤ (pyStrip w).length).sum := by
  constructor
  · intro c hc
    simp only [create_chunks] at hc
    rcases List.mem_flatMap.mp hc with ⟨sec, hsec, hin⟩
    rcases List.mem_filterMap.mp hin with ⟨p, hp, hfp⟩
    by_cases h : (pyStrip p.2).length < 50
    · rw [if_pos h] at hfp
      exact absurd hfp (by simp)
    · rw [if_neg h] at hfp
      cases hfp
      refine ⟨pyStrip_idem p.2, ?_⟩
      show 50 ≤ (pyStrip p.2).length
      omega
  · induction sections with
    | nil => rfl
    | cons sec rest ih =>
      simp only [create_chunks, List.flatMap_cons, List.length_append,
        List.map_cons, List.sum_cons]
      simp only [create_chunks] at ih
      rw [ih]
      congr 1
      have henum : (splitter sec.text).enum = List.enumFrom 0 (splitter sec.text) := rfl
      rw [henum]
      refine length_filterMap_enumFrom
        (fun i ct =>
          if (pyStrip ct).length < 50 then (none : Option DocumentChunk)
          else
            some
              (⟨pyStrip ct,
                ⟨sec.chapter, sec.page_number, sec.source, sec.filename, i,
                  (splitter sec.text).length, identify_chunk_type ct⟩,
                fresh sec i⟩ : DocumentChunk))
        (fun w => 50 ≤ (pyStrip w).length) ?_ 0 (splitter sec.text)
      intro i a
      by_cases h : (pyStrip a).length < 50
      · have h2 : ¬ (50 ≤ (pyStrip a).length) := by omega
        simp [h, h2]
      · have h2 : 50 ≤ (pyStrip a).length := by omega
        simp [h, h2]

/-- Witness for `chunk_min_length_spec`: one section whose single 55-character
window yields exactly one chunk, of length at least 50. -/
theorem chunk_min_length_spec_witness :
    (create_chunks (fun s => [s]) (fun _ _ => "id0")
      [⟨"0123456789012345678901234567890123456789012345678901234", 1,
        "Chapter 1", "src", "f.pdf"⟩]).length = 1 ∧
    50 ≤ (⟨"0123456789012345678901234567890123456789012345678901234",
      ⟨"Chapter 1", 1, "src", "f.pdf", 0, 1, "content"⟩, "id0"⟩ :
        DocumentChunk).text.length := by
  constructor
  · rw [(chunk_min_length_spec (fun s => [s]) (fun _ _ => "id0")
      [⟨"0123456789012345678901234567890123456789012345678901234", 1,
        "Chapter 1", "src", "f.pdf"⟩]).2]
    decide
  · exact ((chunk_min_length_spec (fun s => [s]) (fun _ _ => "id0")
      [⟨"0123456789012345678901234567890123456789012345678901234", 1,
        "Chapter 1", "src", "f.pdf"⟩]).1 _ (by decide)).2

lemma create_chunks_nil (splitter : String → List String)
    (fresh : PageSection → Nat → String) :
    create_chunks splitter fresh [] = [] := rfl

lemma flatMap_eq_nil_of_all {α β : Type} (g : α → List β) (l : List α)
    (h : l.flatMap g = []) : ∀ a ∈ l, g a = [] := by
  intro a ha
  induction l with
  | nil => cases ha
  | cons b rest ih =>
    rw [List.flatMap_cons] at h
    rcases List.append_eq_nil.mp h with ⟨hb, hrest⟩
    rcases List.mem_cons.mp ha with hab | har
    · rw [hab]; exact hb
    · exact ih hrest har

/-- C8: `process_pdf` reports failure only when every selected document
yields zero units — a single document with units forces success — and on
success the chunks are exactly those of the sections collected from the
documents that parsed, the failing ones having been skipped. -/
theorem skip_and_continue_spec (splitter : String → List String)
    (fresh : PageSection → Nat → String)
    (extract : String → Except String (List PageSection))
    (pdf_path : Option String) (discovered : List String) :
    ((process_pdf splitter fresh extract pdf_path discovered).success = false →
      ∀ f ∈ selectedFiles pdf_path discovered,
        create_chunks splitter fresh (okSections extract f) = []) ∧
    ((∃ f ∈ selectedFiles pdf_path discovered,
        create_chunks splitter fresh (okSections extract f) ≠ []) →
      (process_pdf splitter fresh extract pdf_path discovered).success = true) ∧
    ((process_pdf splitter fresh extract pdf_path discovered).success = true →
      (process_pdf splitter fresh extract pdf_path discovered).chunks
        = create_chunks splitter fresh
            (collectSections extract (selectedFiles pdf_path discovered))) := by
  by_cases h1 : (selectedFiles pdf_path discovered).isEmpty
  · have hres : process_pdf splitter fresh extract pdf_path discovered
        = { success := false, total_chunks := 0, total_files_processed := 0
            chunks := []
            message := "PDF processing failed: No PDF files found to process" } := by
      simp only [process_pdf, h1]
      rfl
    refine ⟨?_, ?_, ?_⟩
    · intro _ f hf
      rw [List.isEmpty_iff.mp h1] at hf
      cases hf
    · rintro ⟨f, hf, _⟩
      rw [List.isEmpty_iff.mp h1] at hf
      cases hf
    · intro hsucc
      rw [hres] at hsucc
      cases hsucc
  · by_cases h2 :
      (collectSections extract (selectedFiles pdf_path discovered)).isEmpty
    · have hres : process_pdf splitter fresh extract pdf_path discovered
          = { success := false, total_chunks := 0, total_files_processed := 0
              chunks := []
              message := "PDF processing failed: No text content extracted from any PDF" } := by
        simp only [process_pdf, h1, h2]
        rfl
      refine ⟨?_, ?_, ?_⟩
      · intro _ f hf
        have hok : okSections extract f = [] :=
          flatMap_eq_nil_of_all (okSections extract) _
            (List.isEmpty_iff.mp h2) f hf
        rw [hok]
        exact create_chunks_nil splitter fresh
      · rintro ⟨f, hf, hne⟩
        have hok : okSections extract f = [] :=
          flatMap_eq_nil_of_all (okSections extract) _
            (List.isEmpty_iff.mp h2) f hf
        rw [hok] at hne
        exact absurd (create_chunks_nil splitter fresh) hne
      · intro hsucc
        rw [hres] at hsucc
        cases hsucc
    · have hres : process_pdf splitter fresh extract pdf_path discovered
          = { success := true
              total_chunks := (create_chunks splitter fresh
                (collectSections extract (selectedFiles pdf_path discovered))).length
              total_files_processed := (selectedFiles pdf_path discovered).length
              chunks := create_chunks splitter fresh
                (collectSections extract (selectedFiles pdf_path discovered))
              message := "Successfully processed "
                ++ toString (selectedFiles pdf_path discovered).length
                ++ " PDF files into "
                ++ toString (create_chunks splitter fresh
                    (collectSections extract (selectedFiles pdf_path discovered))).length
                ++ " chunks" } := by
        simp only [process_pdf, h1, h2]
        rfl
      refine ⟨?_, ?_, ?_⟩
      · intro hfail
        rw [hres] at hfail
        cases hfail
      · intro _
        rw [hres]
      · intro _
        rw [hres]

/-- Witness for `skip_and_continue_spec`: one corrupt document is skipped and
the remaining document's units force overall success. -/
theorem skip_and_continue_spec_witness :
    (process_pdf (fun s => [s]) (fun _ _ => "id1")
      (fun f => if f = "good.pdf"
        then Except.ok [⟨"0123456789012345678901234567890123456789012345678901234",
          1, "Chapter 1", "good.pdf", "good.pdf"⟩]
        else Except.error "corrupt")
      none ["bad.pdf", "good.pdf"]).success = true := by
  apply (skip_and_continue_spec (fun s => [s]) (fun _ _ => "id1")
    (fun f => if f = "good.pdf"
      then Except.ok [⟨"0123456789012345678901234567890123456789012345678901234",
        1, "Chapter 1", "good.pdf", "good.pdf"⟩]
      else Except.error "corrupt")
    none ["bad.pdf", "good.pdf"]).2.1
  exact ⟨"good.pdf", by decide, by decide⟩

lemma extract_chapter_from_text_ne_empty (t c : String)
    (h : extract_chapter_from_text t = some c) : c ≠ "" := by
  have hform : ∃ a b : String, c = "Chapter " ++ a ++ ": " ++ b := by
    simp only [extract_chapter_from_text] at h
    rcases hs1 : searchChapter t.data with _ | ⟨num, name⟩
    · simp only [hs1] at h
      rcases hs2 : searchNumDot t.data with _ | ⟨n2, m2⟩
      · simp only [hs2] at h
        cases h
      · simp only [hs2] at h
        exact ⟨_, _, (Option.some.inj h).symm⟩
    · simp only [hs1] at h
      exact ⟨_, _, (Option.some.inj h).symm⟩
  rcases hform with ⟨a, b, rfl⟩
  intro he
  have hlen := congrArg String.length he
  have h8 : ("Chapter " : String).length = 8 := rfl
  have h2 : (": " : String).length = 2 := rfl
  have h0 : ("" : String).length = 0 := rfl
  simp only [String.length_append] at hlen
  omega

/-- C5 counterexample: on a page with no text-pattern match and a filename
matching no known suffix pattern, the attached label is the uppercased
filename root, not the filename root itself, refuting the claim's last
clause as stated. -/
theorem label_fallback_counterexample :
    extract_chapter_from_text "x" = none ∧
    searchIescNum (String.data "notes.pdf") = none ∧
    containsStr "iesc1an.pdf" (lowerStr "notes.pdf") = false ∧
    containsStr "iesc1ps.pdf" (lowerStr "notes.pdf") = false ∧
    splitextRoot "notes.pdf" = "notes" ∧
    currentChapter "x" "notes.pdf" = "NOTES" ∧
    currentChapter "x" "notes.pdf" ≠ "notes" := by
  refine ⟨?_, ?_, ?_, ?_, ?_, ?_, ?_⟩ <;> decide

/-- C5 (amended): a successful text-pattern match always supplies the label;
only when no text pattern matches is the filename-derived label used; and
when the filename matches no known suffix pattern, the uppercased filename
root (without extension) is used as the label. -/
theorem label_resolution_spec (text filename : String) :
    (∀ c, extract_chapter_from_text text = some c →
      currentChapter text filename = c) ∧
    (extract_chapter_from_text text = none →
      currentChapter text filename = extract_chapter_from_filename filename) ∧
    (searchIescNum filename.data = none →
      containsStr "iesc1an.pdf" (lowerStr filename) = false →
      containsStr "iesc1ps.pdf" (lowerStr filename) = false →
      extract_chapter_from_filename filename = upperStr (splitextRoot filename)) := by
  refine ⟨?_, ?_, ?_⟩
  · intro c hc
    have hne := extract_chapter_from_text_ne_empty text c hc
    simp [currentChapter, hc, hne]
  · intro h
    simp [currentChapter, h]
  · intro h1 h2 h3
    simp [extract_chapter_from_filename, h1, h2, h3]

/-- Witness for `label_resolution_spec`: a text-derived label takes
precedence, and an unmatched filename falls back to its uppercased root. -/
theorem label_resolution_spec_witness :
    currentChapter "Chapter 4: Motion" "a.txt" = "Chapter 4: Motion" ∧
    extract_chapter_from_filename "mybook.pdf" = "MYBOOK" := by
  constructor
  · exact (label_resolution_spec "Chapter 4: Motion" "a.txt").1 _ (by decide)
  · have h := (label_resolution_spec "x" "mybook.pdf").2.2
      (by decide) (by decide) (by decide)
    rw [h]
    decide

end RAGSpec
